import Mathlib

-- Verification of the extrusion-synthesis state machine of
-- skeinforge_application/skeinforge_plugins/craft_plugins/dimension.py.
-- Python floats are modelled as real numbers; the number-formatting helper
-- getRounded of gcodec.DistanceFeedRate is treated as the identity (the
-- emitted tokens carry the exact real value), and printed warnings are
-- modelled by a warning counter.  Output lines are modelled structurally
-- by the OutLine type instead of strings.

set_option maxHeartbeats 1000000

open Classical

noncomputable section

namespace SFACT

/-- 2D projection of a location: the complex number returned by
Vector3.dropAxis in the source, modelled as a pair of reals. -/
abbrev Point := ℝ × ℝ

/-- Absolute value of the 2D projection (abs of the dropAxis complex). -/
def Point.abs (p : Point) : ℝ := Real.sqrt (p.1 ^ 2 + p.2 ^ 2)

/-- 3D location vector (fabmetheus Vector3). -/
structure Vector3 where
  x : ℝ
  y : ℝ
  z : ℝ

instance : Add Vector3 := ⟨fun a b => ⟨a.x + b.x, a.y + b.y, a.z + b.z⟩⟩

instance : Sub Vector3 := ⟨fun a b => ⟨a.x - b.x, a.y - b.y, a.z - b.z⟩⟩

/-- Euclidean absolute value of a Vector3 (abs in the source). -/
def Vector3.abs (v : Vector3) : ℝ := Real.sqrt (v.x ^ 2 + v.y ^ 2 + v.z ^ 2)

/-- Projection dropping the z axis. -/
def Vector3.dropAxis (v : Vector3) : Point := (v.x, v.y)

/-- The axis words of a linear motion line: optional X, Y, Z coordinates and
an optional F feed rate, as parsed by gcodec from the split line. -/
structure MoveWords where
  x : Option ℝ
  y : Option ℝ
  z : Option ℝ
  f : Option ℝ

/-- The kinds of input line that the dimension pass inspects.  Arc moves,
blank lines and initialization markers play no part in the claims and are
subsumed by the opaque constructor. -/
inductive GLine where
  | g1 (w : MoveWords)
  | g90
  | g91
  | layerMarker
  | m101
  | m103
  | m108 (flowRate : ℝ)
  | other

/-- The extrusion-distance token appended to a motion line: either the empty
string or a token carrying the (rounded) E value. -/
inductive EToken where
  | empty
  | value (e : ℝ)

/-- One line written to the output buffer. -/
inductive OutLine where
  | raw (line : GLine)
  | move (w : MoveWords) (token : EToken)
  | feedRate (f : Option ℝ)
  | g1Extrusion (token : EToken)
  | g92E0
  | m82
  | m83

/-- Modelled from the spec: euclidean.isPointInsideLoop of
fabmetheus_utilities/euclidean.py is not under src/; section 4.4 of the spec
specifies a standard point-in-polygon containment test on the 2D projection.
A boundary loop is therefore modelled by the containment predicate it
induces; every claim that touches loops depends only on the answers of this
test, never on its implementation. -/
structure Loop where
  containsPoint : Point → Bool

/-- A boundary layer: z height plus the loops of the layer
(euclidean.LoopLayer). -/
structure LoopLayer where
  z : ℝ
  loops : List Loop

/-- The configuration values of DimensionRepository read by the skein. -/
structure Repository where
  activateFixedRetract : Bool
  activateAdaptiveRetract : Bool
  extruderRetractionSpeed : ℝ
  filamentDiameter : ℝ
  filamentPackingDensity : ℝ
  retractionDistance : ℝ
  restartExtraDistance : ℝ
  retractWithinIsland : Bool
  minimumTravelForRetraction : ℝ
  oozeRate : ℝ
  afterOooze : ℝ
  maxRetract : ℝ
  minRetract : ℝ
  useFilamentDiameter : Bool
  maximumEValueBeforeReset : ℝ
  relativeExtrusionDistance : Bool

/-- The mutable state of DimensionSkein.  Fields that the source sets only
inside getCraftedGcode (filamentRadius, minimumTravelForRetraction,
doubleMinimumTravelForRetraction, restartDistance,
extruderRetractionSpeedMinuteString) are carried here as well; Python None
values are modelled by Option.  The warning counter models the printed
warnings and the output list models the DistanceFeedRate output buffer. -/
structure DimensionSkein where
  absoluteDistanceMode : Bool
  boundaryLayers : List LoopLayer
  feedRateMinute : Option ℝ
  isExtruderActive : Bool
  layerIndex : ℤ
  maximumZTravelFeedRatePerSecond : Option ℝ
  oldLocation : Option Vector3
  operatingFlowRate : Option ℝ
  retractionRatio : ℝ
  totalExtrusionDistance : ℝ
  travelFeedRatePerSecond : Option ℝ
  zDistanceRatio : ℝ
  autoRetractDistance : ℝ
  timeToNextThread : Option ℝ
  layerThickness : ℝ
  perimeterWidth : ℝ
  filamentXsection : ℝ
  nozzleXsection : ℝ
  flowRate : ℝ
  extrusionReduction : ℝ
  extrusionXsection : ℝ
  repository : Repository
  lines : List GLine
  filamentRadius : ℝ
  minimumTravelForRetraction : ℝ
  doubleMinimumTravelForRetraction : ℝ
  restartDistance : ℝ
  extruderRetractionSpeedMinuteString : ℝ
  warningCount : ℕ
  output : List OutLine

/-- gcodec.getLocationFromSplitLine: axis words present in the line override
the old location, absent axes keep it; a missing old location is the
origin. -/
def getLocationFromSplitLine (oldLocation : Option Vector3) (w : MoveWords) : Vector3 :=
  let base := oldLocation.getD ⟨0, 0, 0⟩
  ⟨w.x.getD base.x, w.y.getD base.y, w.z.getD base.z⟩

/-- gcodec.getFeedRateMinute: an F word in the line replaces the remembered
feed rate, otherwise the old value is kept. -/
def getFeedRateMinute (feedRateMinute : Option ℝ) (w : MoveWords) : Option ℝ :=
  match w.f with
  | some f => some f
  | none => feedRateMinute

/-- Python list indexing, which admits negative indexes counting from the
end; none models an IndexError. -/
def pyIndex {α : Type} (l : List α) (i : ℤ) : Option α :=
  if 0 ≤ i then l.get? i.toNat
  else if 0 ≤ i + l.length then l.get? (i + l.length).toNat else none

/-- The initial DimensionSkein state (DimensionSkein.__init__), with the
repository and the line list attached as getCraftedGcode does.  The
getCraftedGcode-only fields start at 0 and are assigned by
getCraftedGcodeSetup. -/
def initSkein (repository : Repository) (lines : List GLine) : DimensionSkein where
  absoluteDistanceMode := true
  boundaryLayers := []
  feedRateMinute := none
  isExtruderActive := false
  layerIndex := -1
  maximumZTravelFeedRatePerSecond := none
  oldLocation := none
  operatingFlowRate := none
  retractionRatio := 1
  totalExtrusionDistance := 0
  travelFeedRatePerSecond := none
  zDistanceRatio := 5
  autoRetractDistance := 0
  timeToNextThread := none
  layerThickness := 0
  perimeterWidth := 0
  filamentXsection := 0
  nozzleXsection := 0
  flowRate := 0
  extrusionReduction := 1
  extrusionXsection := 0
  repository := repository
  lines := lines
  filamentRadius := 0
  minimumTravelForRetraction := 0
  doubleMinimumTravelForRetraction := 0
  restartDistance := 0
  extruderRetractionSpeedMinuteString := 0
  warningCount := 0
  output := []

/-- Python truthiness of an optional float: falsy when missing or zero. -/
def pyFalsy (x : Option ℝ) : Prop := x = none ∨ x = some 0

/-- The zDistanceRatio step of getCraftedGcode.  The guard of the source,
"not maximumZTravelFeedRatePerSecond and not travelFeedRatePerSecond",
requires both feed rates to be missing or zero, and the assignment divides
the travel feed rate by the maximum Z travel feed rate; whenever the guard
holds that division hits a missing value or zero, so the assignment can
never complete: none models that crash, and in every completed run the
field keeps its prior value. -/
def setZDistanceRatio (s : DimensionSkein) : Option DimensionSkein :=
  if pyFalsy s.maximumZTravelFeedRatePerSecond ∧ pyFalsy s.travelFeedRatePerSecond then
    none
  else some s

/-- The scalar setup assignments of getCraftedGcode that precede the main
line loop (parseInitialization and parseBoundaries are modelled as already
reflected in the state fields they write). -/
def getCraftedGcodeSetup (s : DimensionSkein) : Option DimensionSkein :=
  let s := { s with filamentRadius := 0.5 * s.repository.filamentDiameter }
  let s := { s with minimumTravelForRetraction := s.repository.minimumTravelForRetraction }
  let s := { s with doubleMinimumTravelForRetraction :=
      s.minimumTravelForRetraction + s.minimumTravelForRetraction }
  let s := { s with restartDistance :=
      s.repository.retractionDistance + s.repository.restartExtraDistance }
  let s := { s with extruderRetractionSpeedMinuteString :=
      60 * s.repository.extruderRetractionSpeed }
  setZDistanceRatio s

/-- getExtrusionDistanceStringFromExtrusionDistance: in relative format the
token carries the just-computed distance and the state is untouched; in
absolute format the distance is added to the running total and the token
carries the new total. -/
def getExtrusionDistanceStringFromExtrusionDistance (s : DimensionSkein)
    (extrusionDistance : ℝ) : EToken × DimensionSkein :=
  if s.repository.relativeExtrusionDistance then
    (EToken.value extrusionDistance, s)
  else
    let s := { s with totalExtrusionDistance := s.totalExtrusionDistance + extrusionDistance }
    (EToken.value s.totalExtrusionDistance, s)

/-- getExtrusionDistanceString: update the remembered feed rate from the
line, emit the empty token when the extruder is inactive or the distance is
zero or negative (counting a warning in the negative case), otherwise
recompute the cross sections and the reduction and hand the scaled length
to the formatting step. -/
def getExtrusionDistanceString (s : DimensionSkein) (distance : ℝ) (w : MoveWords) :
    EToken × DimensionSkein :=
  let s := { s with feedRateMinute := getFeedRateMinute s.feedRateMinute w }
  if s.isExtruderActive = false then (EToken.empty, s)
  else if distance = 0 then (EToken.empty, s)
  else if distance < 0 then (EToken.empty, { s with warningCount := s.warningCount + 1 })
  else
    let s := { s with extrusionXsection :=
        ((s.layerThickness / 2 + s.perimeterWidth / 2) / 2) ^ 2 * Real.pi }
    let s := { s with filamentXsection :=
        (s.repository.filamentDiameter / 2) ^ 2 * Real.pi }
    let s := { s with extrusionReduction :=
        if s.repository.useFilamentDiameter then s.filamentXsection / s.extrusionXsection
        else 1 }
    let scaledFlowRate := s.flowRate * 10 * s.extrusionXsection
    getExtrusionDistanceStringFromExtrusionDistance s
      (scaledFlowRate * distance / s.extrusionReduction)

/-- addLinearMoveExtrusionDistanceLine: when the extruder retraction speed is
nonzero, write a feed-rate line at the precomputed retraction feed rate, a
G1 line carrying the extrusion-distance token, and a feed-rate line with the
remembered feed rate; when the speed is zero nothing happens. -/
def addLinearMoveExtrusionDistanceLine (s : DimensionSkein) (extrusionDistance : ℝ) :
    DimensionSkein :=
  if s.repository.extruderRetractionSpeed ≠ 0 then
    let p := getExtrusionDistanceStringFromExtrusionDistance s extrusionDistance
    { p.2 with output := p.2.output ++
        [OutLine.feedRate (some s.extruderRetractionSpeedMinuteString),
         OutLine.g1Extrusion p.1,
         OutLine.feedRate s.feedRateMinute] }
  else s

/-- getDimensionedLinearMovement: track the location under the current
distance mode, derive the travel distance, and append the extrusion token. -/
def getDimensionedLinearMovement (s : DimensionSkein) (w : MoveWords) :
    OutLine × DimensionSkein :=
  if s.absoluteDistanceMode then
    let location := getLocationFromSplitLine s.oldLocation w
    let distance :=
      match s.oldLocation with
      | some old => Vector3.abs (location - old)
      | none => 0
    let s := { s with oldLocation := some location }
    let p := getExtrusionDistanceString s distance w
    (OutLine.move w p.1, p.2)
  else
    let s :=
      if s.oldLocation = none then
        { s with warningCount := s.warningCount + 1, oldLocation := some ⟨0, 0, 0⟩ }
      else s
    let location := getLocationFromSplitLine none w
    let distance := Vector3.abs location
    let s := { s with oldLocation := some (s.oldLocation.getD ⟨0, 0, 0⟩ + location) }
    let p := getExtrusionDistanceString s distance w
    (OutLine.move w p.1, p.2)

/-- getSmallestEnclosureIndex loop: index of the first loop, in the stored
ascending-area order, whose containment test accepts the point. -/
def findLoopIndexAux (point : Point) : ℕ → List Loop → Option ℕ
  | _, [] => none
  | i, loop :: rest =>
    if loop.containsPoint point then some i else findLoopIndexAux point (i + 1) rest

/-- getSmallestEnclosureIndex: index the boundary layers with the current
layer index using Python list indexing (the outer none models the
IndexError raised when the index is out of range), then search the loops of
that layer. -/
def getSmallestEnclosureIndex (s : DimensionSkein) (point : Point) : Option (Option ℕ) :=
  (pyIndex s.boundaryLayers s.layerIndex).map fun boundaryLayer =>
    findLoopIndexAux point 0 boundaryLayer.loops

/-- The scan loop of getDistanceToNextThread over the lines after the
current one.  The extruder flag toggles on activate and deactivate markers;
the first motion line seen while the flag is set determines the result: if
island-restricted retraction applies and the enclosure index of the new
location differs from that of the start location the scan aborts with none
and the state untouched, otherwise the combined travel is returned and the
predicted time and the clamped adaptive retract length are stored.  A
missing remembered feed rate would crash the source at the division; it is
modelled as the default 0 and is never exercised by the theorems below. -/
def distanceToNextThreadLoop (s : DimensionSkein) (old : Vector3) (isActive : Bool)
    (location : Vector3) : List GLine → Option ℝ × DimensionSkein
  | [] => (none, s)
  | line :: rest =>
    match line with
    | GLine.g1 w =>
      if isActive then
        let location := getLocationFromSplitLine (some location) w
        if s.repository.retractWithinIsland = false ∧
            getSmallestEnclosureIndex s location.dropAxis ≠
              getSmallestEnclosureIndex s old.dropAxis then
          (none, s)
        else
          let locationMinusOld := location - old
          let xyTravel := Point.abs locationMinusOld.dropAxis
          let zTravelMultiplied := locationMinusOld.z * s.zDistanceRatio
          let timeToNextThread :=
            Real.sqrt (xyTravel * xyTravel + zTravelMultiplied * zTravelMultiplied) /
              s.feedRateMinute.getD 0 * 60
          let retractDistance := Real.sqrt timeToNextThread * (s.repository.oozeRate / 60)
          let autoRetractDistance :=
            if retractDistance < s.repository.minRetract then s.repository.minRetract
            else if retractDistance > s.repository.maxRetract then s.repository.maxRetract
            else retractDistance
          (some (Real.sqrt (xyTravel * xyTravel + zTravelMultiplied * zTravelMultiplied)),
           { s with timeToNextThread := some timeToNextThread,
                    autoRetractDistance := autoRetractDistance })
      else distanceToNextThreadLoop s old isActive location rest
    | GLine.m101 => distanceToNextThreadLoop s old true location rest
    | GLine.m103 => distanceToNextThreadLoop s old false location rest
    | _ => distanceToNextThreadLoop s old isActive location rest

/-- getDistanceToNextThread: none when no location has been seen yet,
otherwise scan forward from the line after lineIndex. -/
def getDistanceToNextThread (s : DimensionSkein) (lineIndex : ℕ) :
    Option ℝ × DimensionSkein :=
  match s.oldLocation with
  | none => (none, s)
  | some old => distanceToNextThreadLoop s old false old (s.lines.drop (lineIndex + 1))

/-- getRetractionRatio: 1.0 when the lookahead finds nothing, 1.0 at or
above twice the minimum travel, 0.0 at or below the minimum travel, and the
linear ramp in between. -/
def getRetractionRatio (s : DimensionSkein) (lineIndex : ℕ) : ℝ × DimensionSkein :=
  let p := getDistanceToNextThread s lineIndex
  match p.1 with
  | none => (1, p.2)
  | some distanceToNextThread =>
    if distanceToNextThread ≥ p.2.doubleMinimumTravelForRetraction then (1, p.2)
    else if distanceToNextThread ≤ p.2.minimumTravelForRetraction then (0, p.2)
    else ((distanceToNextThread - p.2.minimumTravelForRetraction) /
        p.2.minimumTravelForRetraction, p.2)

/-- The retraction or restart emission step of the M101 branch of
parseLine. -/
def parseLineM101Retract (s : DimensionSkein) : DimensionSkein :=
  if s.repository.activateFixedRetract then
    addLinearMoveExtrusionDistanceLine s (s.restartDistance * s.retractionRatio)
  else if s.repository.activateAdaptiveRetract then
    addLinearMoveExtrusionDistanceLine s (s.autoRetractDistance * 10 / s.extrusionReduction)
  else s

/-- The M101 branch of parseLine: emit the restart move, then reset the
running total (writing G92 E0) when it exceeds the ceiling or the output
format is relative, then mark the extruder active. -/
def parseLineM101 (s : DimensionSkein) : DimensionSkein :=
  let s := parseLineM101Retract s
  let s :=
    if s.totalExtrusionDistance > s.repository.maximumEValueBeforeReset ∨
        s.repository.relativeExtrusionDistance = true then
      { s with output := s.output ++ [OutLine.g92E0], totalExtrusionDistance := 0 }
    else s
  { s with isExtruderActive := true }

/-- The M103 branch of parseLine: in fixed mode emit the retraction move
scaled by the stored ratio (the recomputation of the ratio is commented out
in the source); in adaptive mode recompute the ratio (whose lookahead also
stores the adaptive retract length) and emit the adaptive retraction move;
finally mark the extruder inactive. -/
def parseLineM103 (s : DimensionSkein) (lineIndex : ℕ) : DimensionSkein :=
  let s :=
    if s.repository.activateFixedRetract then
      addLinearMoveExtrusionDistanceLine s (-s.repository.retractionDistance * s.retractionRatio)
    else if s.repository.activateAdaptiveRetract then
      let p := getRetractionRatio s lineIndex
      let s := { p.2 with retractionRatio := p.1 }
      addLinearMoveExtrusionDistanceLine s
        (-(s.autoRetractDistance * 10 - s.repository.afterOooze) / s.extrusionReduction)
    else s
  { s with isExtruderActive := false }

/-- parseLine: dispatch on the first word of the indexed line, echo the
(possibly rewritten) line, and finish with the filament cross-section
assignment that closes the source function. -/
def parseLine (s : DimensionSkein) (lineIndex : ℕ) : DimensionSkein :=
  let finish := fun (s : DimensionSkein) (outLine : OutLine) =>
    let s := { s with output := s.output ++ [outLine] }
    { s with filamentXsection :=
        Real.pi * s.filamentRadius ^ 2 * s.repository.filamentPackingDensity }
  match s.lines.get? lineIndex with
  | none => s
  | some (GLine.g1 w) =>
    let p := getDimensionedLinearMovement s w
    finish p.2 p.1
  | some GLine.g90 => finish { s with absoluteDistanceMode := true } (OutLine.raw GLine.g90)
  | some GLine.g91 => finish { s with absoluteDistanceMode := false } (OutLine.raw GLine.g91)
  | some GLine.layerMarker =>
    let s :=
      if s.repository.relativeExtrusionDistance = false then
        { s with output := s.output ++ [OutLine.m82] }
      else { s with output := s.output ++ [OutLine.m83] }
    finish { s with layerIndex := s.layerIndex + 1 } (OutLine.raw GLine.layerMarker)
  | some GLine.m101 => finish (parseLineM101 s) (OutLine.raw GLine.m101)
  | some GLine.m103 => finish (parseLineM103 s lineIndex) (OutLine.raw GLine.m103)
  | some (GLine.m108 fl) =>
    finish { s with operatingFlowRate := some fl, flowRate := fl }
      (OutLine.raw (GLine.m108 fl))
  | some GLine.other => finish s (OutLine.raw GLine.other)

/-- Spec formula: extrusionCrossSection of section 4.3. -/
def extrusionCrossSectionSpec (s : DimensionSkein) : ℝ :=
  Real.pi * ((s.layerThickness + s.perimeterWidth) / 4) ^ 2

/-- Spec formula: filamentCrossSection of section 4.3. -/
def filamentCrossSectionSpec (s : DimensionSkein) : ℝ :=
  Real.pi * (s.repository.filamentDiameter / 2) ^ 2

/-- Spec formula: extrusionReduction of section 4.3. -/
def extrusionReductionSpec (s : DimensionSkein) : ℝ :=
  if s.repository.useFilamentDiameter then
    filamentCrossSectionSpec s / extrusionCrossSectionSpec s
  else 1

/-- Spec formula: feedLengthFor of section 4.3 with the unit-scaling
constant k instantiated to 10. -/
def feedLengthForSpec (s : DimensionSkein) (travelDistance : ℝ) : ℝ :=
  s.flowRate * 10 * extrusionCrossSectionSpec s * travelDistance / extrusionReductionSpec s

/-- A concrete configuration used by the worked examples below: fixed
retraction with retraction distance 1 and threshold 10, relative output,
unit retraction speed. -/
def repoBase : Repository where
  activateFixedRetract := true
  activateAdaptiveRetract := false
  extruderRetractionSpeed := 1
  filamentDiameter := 2.8
  filamentPackingDensity := 1
  retractionDistance := 1
  restartExtraDistance := 0
  retractWithinIsland := true
  minimumTravelForRetraction := 10
  oozeRate := 6
  afterOooze := 1
  maxRetract := 20
  minRetract := 0.3
  useFilamentDiameter := false
  maximumEValueBeforeReset := 91234
  relativeExtrusionDistance := true

/-- A motion line with no axis words. -/
def wEmpty : MoveWords := ⟨none, none, none, none⟩

/-- A motion line moving to x = 1. -/
def wX1 : MoveWords := ⟨some 1, some 0, some 0, none⟩

/-- A motion line moving to (1, 1, 0). -/
def wXY1 : MoveWords := ⟨some 1, some 1, some 0, none⟩

/-- A motion line moving to (3, 4, 0). -/
def wX3Y4 : MoveWords := ⟨some 3, some 4, some 0, none⟩

/-- A motion line moving to (5, 5, 0). -/
def wX5Y5 : MoveWords := ⟨some 5, some 5, some 0, none⟩

/-- Example state for the feed-length formula: extruder active, flow rate
1, layer thickness 0.4, perimeter width 0.5. -/
def sC1 : DimensionSkein :=
  { initSkein repoBase [] with
      isExtruderActive := true
      flowRate := 1
      layerThickness := 0.4
      perimeterWidth := 0.5 }

/-- Example state for the fixed-retraction deactivate event: a deactivate
marker followed by a reactivation one unit of travel away, far below the
minimum-travel threshold 10 of the configuration. -/
def sC2 : DimensionSkein :=
  { initSkein repoBase [GLine.m103, GLine.m101, GLine.g1 wX1] with
      oldLocation := some ⟨0, 0, 0⟩
      feedRateMinute := some 1000
      minimumTravelForRetraction := 10
      doubleMinimumTravelForRetraction := 20
      extruderRetractionSpeedMinuteString := 60 }

/-- Example state for the lookahead distance: two unit travel moves reach
(1,1,0) before the reactivation, whose first motion line stays at
(1,1,0). -/
def sC3 : DimensionSkein :=
  { initSkein repoBase
      [GLine.m103, GLine.g1 wX1, GLine.g1 wXY1, GLine.m101, GLine.g1 wXY1] with
      oldLocation := some ⟨0, 0, 0⟩
      feedRateMinute := some 60
      minimumTravelForRetraction := 10
      doubleMinimumTravelForRetraction := 20
      extruderRetractionSpeedMinuteString := 60 }

/-- Adaptive configuration: adaptive retraction with ooze rate 6, retract
limits [0.3, 20]. -/
def repoAdaptive : Repository :=
  { repoBase with activateFixedRetract := false, activateAdaptiveRetract := true }

/-- Example state for the stale adaptive retract length: a deactivate event
with no remembered location, so the lookahead returns none and the stored
adaptive length keeps its initial value 0. -/
def sC6 : DimensionSkein :=
  { initSkein repoAdaptive [GLine.m103] with
      feedRateMinute := some 1000
      extruderRetractionSpeedMinuteString := 60 }

/-- Example state for a successful adaptive lookahead: reactivation reaches
(3,4,0), five units from the start, at feed rate 60 per minute. -/
def sW6 : DimensionSkein :=
  { initSkein repoAdaptive [GLine.m103, GLine.m101, GLine.g1 wX3Y4] with
      oldLocation := some ⟨0, 0, 0⟩
      feedRateMinute := some 60
      extruderRetractionSpeedMinuteString := 60 }

/-- A boundary loop containing exactly the points with first coordinate at
most 1. -/
def loopHalf : Loop := ⟨fun p => decide (p.1 ≤ 1)⟩

/-- Example state for the island-restricted lookahead: the start (0,0) lies
inside the single boundary loop of the current layer, the reactivation
point (5,5) lies outside it. -/
def sW7 : DimensionSkein :=
  { initSkein { repoBase with retractWithinIsland := false }
      [GLine.m103, GLine.m101, GLine.g1 wX5Y5] with
      oldLocation := some ⟨0, 0, 0⟩
      feedRateMinute := some 60
      layerIndex := 0
      boundaryLayers := [⟨0, [loopHalf]⟩] }

/-- Example state for the activate-event reset: absolute output format,
running total 5 above the ceiling 3, retraction speed zero. -/
def sC8 : DimensionSkein :=
  { initSkein
      { repoBase with
          extruderRetractionSpeed := 0
          maximumEValueBeforeReset := 3
          relativeExtrusionDistance := false }
      [GLine.m101] with
      totalExtrusionDistance := 5 }

/-- Example state for the zero-retraction-speed activate event: relative
output format and retraction speed zero. -/
def sC9 : DimensionSkein :=
  initSkein { repoBase with extruderRetractionSpeed := 0 } [GLine.m101]

/-- Variant of the zero-retraction-speed state with a deactivate marker. -/
def sW9 : DimensionSkein :=
  initSkein { repoBase with extruderRetractionSpeed := 0 } [GLine.m103]

/-- Example state for the setup assignments: a present travel feed rate, so
the zDistanceRatio guard fails and the setup completes. -/
def sSetup : DimensionSkein :=
  { initSkein repoBase [] with travelFeedRatePerSecond := some 50 }

/-- Example state for the layer indexing: fresh skein on a single
layer-marker line, with two boundary layers on record. -/
def s10 : DimensionSkein :=
  { initSkein repoBase [GLine.layerMarker] with
      boundaryLayers := [⟨0, []⟩, ⟨1, []⟩] }

/-- The state produced by the setup assignments run on sSetup. -/
def uSetup : DimensionSkein :=
  { sSetup with
      filamentRadius := 1.4
      minimumTravelForRetraction := 10
      doubleMinimumTravelForRetraction := 20
      restartDistance := 1
      extruderRetractionSpeedMinuteString := 60 }

end SFACT

namespace SFACT

/-- Unfolding lemma for the Vector3 subtraction instance. -/
theorem Vector3.sub_def (a b : Vector3) :
    a - b = ⟨a.x - b.x, a.y - b.y, a.z - b.z⟩ := rfl

/-- Unfolding lemma for the Vector3 addition instance. -/
theorem Vector3.add_def (a b : Vector3) :
    a + b = ⟨a.x + b.x, a.y + b.y, a.z + b.z⟩ := rfl

/-- The formatting step only ever touches the running total. -/
theorem getEDSFED_fields (s : DimensionSkein) (e : ℝ) :
    (getExtrusionDistanceStringFromExtrusionDistance s e).2.repository = s.repository ∧
    (getExtrusionDistanceStringFromExtrusionDistance s e).2.layerIndex = s.layerIndex ∧
    (getExtrusionDistanceStringFromExtrusionDistance s e).2.retractionRatio =
      s.retractionRatio ∧
    (getExtrusionDistanceStringFromExtrusionDistance s e).2.output = s.output ∧
    (getExtrusionDistanceStringFromExtrusionDistance s e).2.lines = s.lines ∧
    (getExtrusionDistanceStringFromExtrusionDistance s e).2.autoRetractDistance =
      s.autoRetractDistance := by
  unfold getExtrusionDistanceStringFromExtrusionDistance
  split <;> exact ⟨rfl, rfl, rfl, rfl, rfl, rfl⟩

/-- The retraction move emission only ever touches the running total and
the output buffer. -/
theorem addLinearMove_fields (s : DimensionSkein) (e : ℝ) :
    (addLinearMoveExtrusionDistanceLine s e).repository = s.repository ∧
    (addLinearMoveExtrusionDistanceLine s e).layerIndex = s.layerIndex ∧
    (addLinearMoveExtrusionDistanceLine s e).retractionRatio = s.retractionRatio ∧
    (addLinearMoveExtrusionDistanceLine s e).lines = s.lines ∧
    (addLinearMoveExtrusionDistanceLine s e).autoRetractDistance = s.autoRetractDistance := by
  unfold addLinearMoveExtrusionDistanceLine
  split
  · exact ⟨(getEDSFED_fields s e).1, (getEDSFED_fields s e).2.1,
      (getEDSFED_fields s e).2.2.1, (getEDSFED_fields s e).2.2.2.2.1,
      (getEDSFED_fields s e).2.2.2.2.2⟩
  · exact ⟨rfl, rfl, rfl, rfl, rfl⟩

/-- The lookahead loop either aborts with the state untouched, or succeeds
and the only changes are the stored predicted time and the clamped
adaptive retract length computed from it. -/
theorem distanceToNextThreadLoop_spec (s : DimensionSkein) (old : Vector3)
    (ls : List GLine) :
    ∀ (b : Bool) (loc : Vector3),
      ((distanceToNextThreadLoop s old b loc ls).1 = none →
        (distanceToNextThreadLoop s old b loc ls).2 = s) ∧
      (∀ d, (distanceToNextThreadLoop s old b loc ls).1 = some d →
        ∃ t, (distanceToNextThreadLoop s old b loc ls).2 =
          { s with
              timeToNextThread := some t
              autoRetractDistance :=
                if Real.sqrt t * (s.repository.oozeRate / 60) < s.repository.minRetract
                then s.repository.minRetract
                else if Real.sqrt t * (s.repository.oozeRate / 60) > s.repository.maxRetract
                  then s.repository.maxRetract
                  else Real.sqrt t * (s.repository.oozeRate / 60) }) := by
  induction ls with
  | nil =>
    intro b loc
    refine ⟨fun _ => rfl, fun d h => ?_⟩
    simp [distanceToNextThreadLoop] at h
  | cons line rest ih =>
    intro b loc
    cases line with
    | g1 w =>
      cases b with
      | false => simpa [distanceToNextThreadLoop] using ih false loc
      | true =>
        by_cases hisl : s.repository.retractWithinIsland = false ∧
            getSmallestEnclosureIndex s
                (Vector3.dropAxis (getLocationFromSplitLine (some loc) w)) ≠
              getSmallestEnclosureIndex s (Vector3.dropAxis old)
        · constructor
          · intro _; simp [distanceToNextThreadLoop, hisl]
          · intro d h; simp [distanceToNextThreadLoop, hisl] at h
        · refine ⟨fun h => ?_, fun d h => ?_⟩
          · simp [distanceToNextThreadLoop, hisl] at h
          · refine ⟨Real.sqrt
              (Point.abs (Vector3.dropAxis (getLocationFromSplitLine (some loc) w - old)) *
                  Point.abs (Vector3.dropAxis (getLocationFromSplitLine (some loc) w - old)) +
                (getLocationFromSplitLine (some loc) w - old).z * s.zDistanceRatio *
                  ((getLocationFromSplitLine (some loc) w - old).z * s.zDistanceRatio)) /
                s.feedRateMinute.getD 0 * 60, ?_⟩
            simp [distanceToNextThreadLoop, hisl]
    | m101 => simpa [distanceToNextThreadLoop] using ih true loc
    | m103 => simpa [distanceToNextThreadLoop] using ih false loc
    | g90 => simpa [distanceToNextThreadLoop] using ih b loc
    | g91 => simpa [distanceToNextThreadLoop] using ih b loc
    | layerMarker => simpa [distanceToNextThreadLoop] using ih b loc
    | m108 fl => simpa [distanceToNextThreadLoop] using ih b loc
    | other => simpa [distanceToNextThreadLoop] using ih b loc

/-- The lookahead either aborts with the state untouched, or succeeds and
only stores the predicted time and the clamped adaptive retract length. -/
theorem getDistanceToNextThread_spec (s : DimensionSkein) (i : ℕ) :
    ((getDistanceToNextThread s i).1 = none → (getDistanceToNextThread s i).2 = s) ∧
    (∀ d, (getDistanceToNextThread s i).1 = some d →
      ∃ t, (getDistanceToNextThread s i).2 =
        { s with
            timeToNextThread := some t
            autoRetractDistance :=
              if Real.sqrt t * (s.repository.oozeRate / 60) < s.repository.minRetract
              then s.repository.minRetract
              else if Real.sqrt t * (s.repository.oozeRate / 60) > s.repository.maxRetract
                then s.repository.maxRetract
                else Real.sqrt t * (s.repository.oozeRate / 60) }) := by
  have hsplit : s.oldLocation = none ∨ ∃ old, s.oldLocation = some old := by
    cases s.oldLocation
    · exact Or.inl rfl
    · exact Or.inr ⟨_, rfl⟩
  rcases hsplit with h | ⟨old, h⟩
  · have he : getDistanceToNextThread s i = (none, s) := by
      unfold getDistanceToNextThread; rw [h]
    rw [he]
    exact ⟨fun _ => rfl, fun d hd => by simp at hd⟩
  · have he : getDistanceToNextThread s i =
        distanceToNextThreadLoop s old false old (s.lines.drop (i + 1)) := by
      unfold getDistanceToNextThread; rw [h]
    rw [he]
    exact distanceToNextThreadLoop_spec s old (s.lines.drop (i + 1)) false old

/-- Fields of the skein that the lookahead never changes. -/
theorem getDistanceToNextThread_immutable (s : DimensionSkein) (i : ℕ) :
    (getDistanceToNextThread s i).2.repository = s.repository ∧
    (getDistanceToNextThread s i).2.layerIndex = s.layerIndex ∧
    (getDistanceToNextThread s i).2.retractionRatio = s.retractionRatio ∧
    (getDistanceToNextThread s i).2.output = s.output ∧
    (getDistanceToNextThread s i).2.lines = s.lines ∧
    (getDistanceToNextThread s i).2.minimumTravelForRetraction =
      s.minimumTravelForRetraction ∧
    (getDistanceToNextThread s i).2.doubleMinimumTravelForRetraction =
      s.doubleMinimumTravelForRetraction ∧
    (getDistanceToNextThread s i).2.extrusionReduction = s.extrusionReduction ∧
    (getDistanceToNextThread s i).2.totalExtrusionDistance = s.totalExtrusionDistance ∧
    (getDistanceToNextThread s i).2.feedRateMinute = s.feedRateMinute ∧
    (getDistanceToNextThread s i).2.extruderRetractionSpeedMinuteString =
      s.extruderRetractionSpeedMinuteString := by
  obtain ⟨hn, hs⟩ := getDistanceToNextThread_spec s i
  cases h : (getDistanceToNextThread s i).1 with
  | none =>
    rw [hn h]
    exact ⟨rfl, rfl, rfl, rfl, rfl, rfl, rfl, rfl, rfl, rfl, rfl⟩
  | some d =>
    obtain ⟨t, ht⟩ := hs d h
    rw [ht]
    exact ⟨rfl, rfl, rfl, rfl, rfl, rfl, rfl, rfl, rfl, rfl, rfl⟩

/-- The state returned by the ratio computation is the state returned by
its lookahead. -/
theorem getRetractionRatio_state (s : DimensionSkein) (i : ℕ) :
    (getRetractionRatio s i).2 = (getDistanceToNextThread s i).2 := by
  unfold getRetractionRatio
  cases h : (getDistanceToNextThread s i).1 with
  | none => simp [h]
  | some d =>
    simp only [h]
    split
    · rfl
    · split <;> rfl

/-- Lines holding no activate marker are skipped by the lookahead while
the extruder flag is down, and the tracked location does not move. -/
theorem distanceLoop_skip_inactive (s : DimensionSkein) (old loc : Vector3)
    (pre rest : List GLine) :
    GLine.m101 ∉ pre →
    distanceToNextThreadLoop s old false loc (pre ++ rest) =
      distanceToNextThreadLoop s old false loc rest := by
  induction pre with
  | nil => intro _; rfl
  | cons line pre ih =>
    intro h
    have hline : line ≠ GLine.m101 := fun he => h (he ▸ List.mem_cons_self _ _)
    have hpre : GLine.m101 ∉ pre := fun hm => h (List.mem_cons_of_mem _ hm)
    cases line with
    | g1 w => simpa [distanceToNextThreadLoop] using ih hpre
    | m101 => exact absurd rfl hline
    | m103 => simpa [distanceToNextThreadLoop] using ih hpre
    | g90 => simpa [distanceToNextThreadLoop] using ih hpre
    | g91 => simpa [distanceToNextThreadLoop] using ih hpre
    | layerMarker => simpa [distanceToNextThreadLoop] using ih hpre
    | m108 fl => simpa [distanceToNextThreadLoop] using ih hpre
    | other => simpa [distanceToNextThreadLoop] using ih hpre

/-- Lines that are neither motion lines nor deactivate markers are skipped
by the lookahead while the extruder flag is up. -/
theorem distanceLoop_skip_active (s : DimensionSkein) (old loc : Vector3)
    (mid rest : List GLine) :
    (∀ l ∈ mid, (∀ w, l ≠ GLine.g1 w) ∧ l ≠ GLine.m103) →
    distanceToNextThreadLoop s old true loc (mid ++ rest) =
      distanceToNextThreadLoop s old true loc rest := by
  induction mid with
  | nil => intro _; rfl
  | cons line mid ih =>
    intro h
    have hline := h line (List.mem_cons_self _ _)
    have hmid : ∀ l ∈ mid, (∀ w, l ≠ GLine.g1 w) ∧ l ≠ GLine.m103 :=
      fun l hl => h l (List.mem_cons_of_mem _ hl)
    cases line with
    | g1 w => exact absurd rfl (hline.1 w)
    | m103 => exact absurd rfl hline.2
    | m101 => simpa [distanceToNextThreadLoop] using ih hmid
    | g90 => simpa [distanceToNextThreadLoop] using ih hmid
    | g91 => simpa [distanceToNextThreadLoop] using ih hmid
    | layerMarker => simpa [distanceToNextThreadLoop] using ih hmid
    | m108 fl => simpa [distanceToNextThreadLoop] using ih hmid
    | other => simpa [distanceToNextThreadLoop] using ih hmid

/-- C5: when the output format is relative extrusion distance, the emitted
feed-length token carries exactly the per-move computed length and the
state (in particular the cumulative total) is untouched; when the format is
absolute, the computed length is added to the cumulative feed length and
the token carries the new total. -/
theorem relativeAbsoluteEmission (s : DimensionSkein) (e : ℝ) :
    (s.repository.relativeExtrusionDistance = true →
      getExtrusionDistanceStringFromExtrusionDistance s e = (EToken.value e, s)) ∧
    (s.repository.relativeExtrusionDistance = false →
      getExtrusionDistanceStringFromExtrusionDistance s e =
        (EToken.value (s.totalExtrusionDistance + e),
         { s with totalExtrusionDistance := s.totalExtrusionDistance + e })) := by
  constructor <;> intro h <;>
    simp [getExtrusionDistanceStringFromExtrusionDistance, h]

/-- Witness for relativeAbsoluteEmission at a concrete state and length. -/
theorem relativeAbsoluteEmission_witness :
    sC1.repository.relativeExtrusionDistance = true ∧
    getExtrusionDistanceStringFromExtrusionDistance sC1 7 = (EToken.value 7, sC1) := by
  exact ⟨rfl, (relativeAbsoluteEmission sC1 7).1 rfl⟩

/-- C4: the synthesized feed-length token is the empty string whenever the
extruder is inactive or the travel distance is zero; a negative travel
distance likewise yields the empty token and, when the extruder is active,
reports a warning. -/
theorem emptyTokenConditions (s : DimensionSkein) (distance : ℝ) (w : MoveWords) :
    (s.isExtruderActive = false →
      (getExtrusionDistanceString s distance w).1 = EToken.empty) ∧
    (distance = 0 → (getExtrusionDistanceString s distance w).1 = EToken.empty) ∧
    (distance < 0 →
      (getExtrusionDistanceString s distance w).1 = EToken.empty ∧
      (s.isExtruderActive = true →
        (getExtrusionDistanceString s distance w).2.warningCount = s.warningCount + 1)) := by
  refine ⟨?_, ?_, ?_⟩
  · intro h
    simp [getExtrusionDistanceString, h]
  · intro h
    cases hAct : s.isExtruderActive <;>
      simp [getExtrusionDistanceString, h, hAct]
  · intro h
    have hne : ¬(distance = 0) := by intro h0; rw [h0] at h; exact lt_irrefl _ h
    cases hAct : s.isExtruderActive <;>
      simp [getExtrusionDistanceString, hne, h, hAct]

/-- Witness for emptyTokenConditions: all three hypotheses discharged at
concrete inputs. -/
theorem emptyTokenConditions_witness :
    ((getExtrusionDistanceString (initSkein repoBase []) 3 wEmpty).1 = EToken.empty) ∧
    ((getExtrusionDistanceString sC1 0 wEmpty).1 = EToken.empty) ∧
    ((getExtrusionDistanceString sC1 (-2) wEmpty).1 = EToken.empty ∧
      (getExtrusionDistanceString sC1 (-2) wEmpty).2.warningCount = sC1.warningCount + 1) := by
  refine ⟨(emptyTokenConditions (initSkein repoBase []) 3 wEmpty).1 rfl,
    (emptyTokenConditions sC1 0 wEmpty).2.1 rfl, ?_⟩
  have h := (emptyTokenConditions sC1 (-2) wEmpty).2.2 (by norm_num)
  exact ⟨h.1, h.2 rfl⟩

/-- C1: for a motion line processed with the extruder active and a positive
travel distance, the synthesized feed length is feedLengthForSpec, that is
(flowRate · 10 · extrusionCrossSection · travelDistance) / extrusionReduction
with extrusionCrossSection = pi · ((layerThickness + perimeterWidth) / 4)²,
filamentCrossSection = pi · (filamentDiameter / 2)², and extrusionReduction
their quotient when the consider-filament-diameter flag is set, else 1; the
token then carries that length (relative format) or the updated running
total (absolute format). -/
theorem feedLengthFormula (s : DimensionSkein) (distance : ℝ) (w : MoveWords)
    (hActive : s.isExtruderActive = true) (hPos : 0 < distance) :
    (getExtrusionDistanceString s distance w).1 =
      if s.repository.relativeExtrusionDistance then
        EToken.value (feedLengthForSpec s distance)
      else EToken.value (s.totalExtrusionDistance + feedLengthForSpec s distance) := by
  have hne : ¬(distance = 0) := by intro h0; rw [h0] at hPos; exact lt_irrefl _ hPos
  have hnlt : ¬(distance < 0) := not_lt.mpr hPos.le
  have hX : ((s.layerThickness / 2 + s.perimeterWidth / 2) / 2) ^ 2 * Real.pi =
      Real.pi * ((s.layerThickness + s.perimeterWidth) / 4) ^ 2 := by ring
  have hF : (s.repository.filamentDiameter / 2) ^ 2 * Real.pi =
      Real.pi * (s.repository.filamentDiameter / 2) ^ 2 := by ring
  simp only [getExtrusionDistanceString, getExtrusionDistanceStringFromExtrusionDistance,
    hActive, hne, hnlt, if_false, Bool.true_eq_false]
  cases hrel : s.repository.relativeExtrusionDistance <;>
    cases hUse : s.repository.useFilamentDiameter <;>
      simp only [hrel, hUse, if_true, if_false, Bool.false_eq_true, EToken.value.injEq,
        feedLengthForSpec, extrusionReductionSpec, extrusionCrossSectionSpec,
        filamentCrossSectionSpec] <;>
      (rw [hX]; try rw [hF])

/-- Witness for feedLengthFormula: flow rate 1, layer thickness 0.4,
perimeter width 0.5, travel 10, filament diameter ignored, relative
output: the token carries 5.0625 pi. -/
theorem feedLengthFormula_witness :
    sC1.isExtruderActive = true ∧ (0 : ℝ) < 10 ∧
    (getExtrusionDistanceString sC1 10 wEmpty).1 = EToken.value (5.0625 * Real.pi) := by
  refine ⟨rfl, by norm_num, ?_⟩
  have h := feedLengthFormula sC1 10 wEmpty rfl (by norm_num)
  rw [h]
  norm_num [sC1, initSkein, repoBase, feedLengthForSpec, extrusionReductionSpec,
    extrusionCrossSectionSpec, filamentCrossSectionSpec]
  ring

/-- Evaluation of the sC2 lookahead: the reactivation is one unit away. -/
theorem sC2_lookahead_eval : (getDistanceToNextThread sC2 0).1 = some 1 := by
  norm_num [getDistanceToNextThread, sC2, initSkein, repoBase, distanceToNextThreadLoop,
    getLocationFromSplitLine, wX1, Vector3.sub_def, Vector3.dropAxis, Point.abs]

/-- The fixed-mode deactivate branch leaves the stored ratio unchanged. -/
theorem parseLineM103_fixed_ratio (s : DimensionSkein) (i : ℕ)
    (hFixed : s.repository.activateFixedRetract = true) :
    (parseLineM103 s i).retractionRatio = s.retractionRatio := by
  simp only [parseLineM103, hFixed, if_true]
  exact (addLinearMove_fields s _).2.2.1

/-- The ratio applied by a fixed-mode deactivate line is the stored one. -/
theorem parseLine_m103_fixed_ratio (s : DimensionSkein) (i : ℕ)
    (hFixed : s.repository.activateFixedRetract = true)
    (hLine : s.lines.get? i = some GLine.m103) :
    (parseLine s i).retractionRatio = s.retractionRatio := by
  simp only [parseLine, hLine]
  exact parseLineM103_fixed_ratio s i hFixed

/-- C2 fails as stated: at this fixed-mode deactivate event the lookahead
travel is 1, at most the minimum-travel threshold 10, so the stated policy
demands ratio 0 and a retraction move of length -retractionDistance * 0;
the pass never recomputes the ratio in fixed mode and emits the move scaled
by the stored ratio 1, length -1. -/
theorem fixedRatioNotRecomputed_cex :
    (getDistanceToNextThread sC2 0).1 = some 1 ∧
    sC2.minimumTravelForRetraction = 10 ∧
    sC2.repository.activateFixedRetract = true ∧
    sC2.lines.get? 0 = some GLine.m103 ∧
    (parseLine sC2 0).output =
      [OutLine.feedRate (some 60), OutLine.g1Extrusion (EToken.value (-1)),
       OutLine.feedRate (some 1000), OutLine.raw GLine.m103] ∧
    EToken.value (-1) ≠ EToken.value (-sC2.repository.retractionDistance * 0) := by
  refine ⟨sC2_lookahead_eval, rfl, rfl, rfl, ?_, ?_⟩
  · norm_num [parseLine, parseLineM103, addLinearMoveExtrusionDistanceLine,
      getExtrusionDistanceStringFromExtrusionDistance, sC2, initSkein, repoBase]
  · norm_num [sC2, initSkein, repoBase]

/-- C2 amended: the ratio-computing function implements exactly the stated
policy (1 when the lookahead finds nothing or the travel is at least twice
the minimum, 0 at or below the minimum, the linear ramp in between), but a
fixed-mode deactivate event never invokes it: the ratio it applies is the
stored retractionRatio, which starts at 1 and is unchanged by the event. -/
theorem retractionRatioPolicy (s : DimensionSkein) (i : ℕ) (d : ℝ)
    (r : Repository) (ls : List GLine) :
    ((getDistanceToNextThread s i).1 = none → (getRetractionRatio s i).1 = 1) ∧
    ((getDistanceToNextThread s i).1 = some d →
      (getRetractionRatio s i).1 =
        if d ≥ s.doubleMinimumTravelForRetraction then 1
        else if d ≤ s.minimumTravelForRetraction then 0
        else (d - s.minimumTravelForRetraction) / s.minimumTravelForRetraction) ∧
    (s.repository.activateFixedRetract = true → s.lines.get? i = some GLine.m103 →
      (parseLine s i).retractionRatio = s.retractionRatio) ∧
    (initSkein r ls).retractionRatio = 1 := by
  refine ⟨?_, ?_, fun hF hL => parseLine_m103_fixed_ratio s i hF hL, rfl⟩
  · intro h
    simp [getRetractionRatio, h]
  · intro h
    have him := getDistanceToNextThread_immutable s i
    simp only [getRetractionRatio, h]
    rw [him.2.2.2.2.2.2.1, him.2.2.2.2.2.1]
    split_ifs <;> rfl

/-- Witness for retractionRatioPolicy at the sC2 example: travel 1 is at
most the threshold 10, the policy function returns 0, yet the fixed-mode
event applies the stored ratio unchanged. -/
theorem retractionRatioPolicy_witness :
    (getDistanceToNextThread sC2 0).1 = some 1 ∧
    (getRetractionRatio sC2 0).1 = 0 ∧
    sC2.repository.activateFixedRetract = true ∧
    sC2.lines.get? 0 = some GLine.m103 ∧
    (parseLine sC2 0).retractionRatio = sC2.retractionRatio ∧
    (initSkein repoBase []).retractionRatio = 1 := by
  have hd := sC2_lookahead_eval
  have h := retractionRatioPolicy sC2 0 1 repoBase []
  have hratio : (getRetractionRatio sC2 0).1 = 0 := by
    rw [h.2.1 hd]
    norm_num [sC2, initSkein]
  exact ⟨hd, hratio, rfl, rfl, h.2.2.1 rfl rfl, h.2.2.2⟩

/-- The restart emission step preserves the configuration. -/
theorem parseLineM101Retract_repository (s : DimensionSkein) :
    (parseLineM101Retract s).repository = s.repository := by
  unfold parseLineM101Retract
  split
  · exact (addLinearMove_fields s _).1
  · split
    · exact (addLinearMove_fields s _).1
    · rfl

/-- C8: at an extruder-activate event, after the restart emission, if the
cumulative feed length exceeds the ceiling or the output format is
relative, a G92 E0 line is written and the cumulative feed length is reset
to zero; otherwise the reset step changes neither the total nor the
output. -/
theorem cumulativeResetOnActivate (s : DimensionSkein) :
    ((parseLineM101Retract s).totalExtrusionDistance >
          s.repository.maximumEValueBeforeReset ∨
        s.repository.relativeExtrusionDistance = true →
      (parseLineM101 s).totalExtrusionDistance = 0 ∧
      (parseLineM101 s).output = (parseLineM101Retract s).output ++ [OutLine.g92E0]) ∧
    (¬((parseLineM101Retract s).totalExtrusionDistance >
          s.repository.maximumEValueBeforeReset ∨
        s.repository.relativeExtrusionDistance = true) →
      (parseLineM101 s).totalExtrusionDistance =
        (parseLineM101Retract s).totalExtrusionDistance ∧
      (parseLineM101 s).output = (parseLineM101Retract s).output) := by
  have hrepo := parseLineM101Retract_repository s
  simp only [parseLineM101, hrepo]
  constructor <;> intro h
  · rw [if_pos h]; exact ⟨rfl, rfl⟩
  · rw [if_neg h]; exact ⟨rfl, rfl⟩

/-- Witness for cumulativeResetOnActivate: total 5 exceeds the ceiling 3,
so the activate event writes G92 E0 and zeroes the total. -/
theorem cumulativeResetOnActivate_witness :
    ((parseLineM101Retract sC8).totalExtrusionDistance >
        sC8.repository.maximumEValueBeforeReset ∨
      sC8.repository.relativeExtrusionDistance = true) ∧
    (parseLineM101 sC8).totalExtrusionDistance = 0 ∧
    (parseLineM101 sC8).output = (parseLineM101Retract sC8).output ++ [OutLine.g92E0] := by
  have hcond : (parseLineM101Retract sC8).totalExtrusionDistance >
        sC8.repository.maximumEValueBeforeReset ∨
      sC8.repository.relativeExtrusionDistance = true := by
    left
    norm_num [parseLineM101Retract, addLinearMoveExtrusionDistanceLine, sC8, initSkein,
      repoBase]
  exact ⟨hcond, (cumulativeResetOnActivate sC8).1 hcond⟩

/-- With retraction speed zero the emission helper is the identity. -/
theorem addLinearMove_speedZero (s : DimensionSkein) (e : ℝ)
    (h : s.repository.extruderRetractionSpeed = 0) :
    addLinearMoveExtrusionDistanceLine s e = s := by
  simp [addLinearMoveExtrusionDistanceLine, h]

/-- With retraction speed zero the restart emission step is the identity. -/
theorem parseLineM101Retract_speedZero (s : DimensionSkein)
    (h : s.repository.extruderRetractionSpeed = 0) :
    parseLineM101Retract s = s := by
  unfold parseLineM101Retract
  split
  · exact addLinearMove_speedZero s _ h
  · split
    · exact addLinearMove_speedZero s _ h
    · rfl

/-- With retraction speed zero the deactivate branch writes nothing. -/
theorem parseLineM103_output_speedZero (s : DimensionSkein) (i : ℕ)
    (h : s.repository.extruderRetractionSpeed = 0) :
    (parseLineM103 s i).output = s.output := by
  unfold parseLineM103
  split
  · rw [addLinearMove_speedZero s _ h]
  · split
    · simp only []
      have hrepo2 : ({ (getRetractionRatio s i).2 with
          retractionRatio := (getRetractionRatio s i).1 } :
            DimensionSkein).repository.extruderRetractionSpeed = 0 := by
        show (getRetractionRatio s i).2.repository.extruderRetractionSpeed = 0
        rw [getRetractionRatio_state, (getDistanceToNextThread_immutable s i).1, h]
      rw [addLinearMove_speedZero _ _ hrepo2]
      show (getRetractionRatio s i).2.output = s.output
      rw [getRetractionRatio_state]
      exact (getDistanceToNextThread_immutable s i).2.2.2.1
    · rfl

/-- C9 fails as stated: with extruder retraction speed zero, an activate
event in relative output format still emits an extra line, the zero-reset
G92 E0, so the output is not only the echoed marker. -/
theorem retractionSpeedZeroExtraLine_cex :
    sC9.repository.extruderRetractionSpeed = 0 ∧
    sC9.lines.get? 0 = some GLine.m101 ∧
    (parseLine sC9 0).output = [OutLine.g92E0, OutLine.raw GLine.m101] ∧
    ([OutLine.g92E0, OutLine.raw GLine.m101] : List OutLine) ≠ [OutLine.raw GLine.m101] := by
  refine ⟨rfl, rfl, ?_, by simp⟩
  norm_num [parseLine, parseLineM101, parseLineM101Retract,
    addLinearMoveExtrusionDistanceLine, sC9, initSkein, repoBase]

/-- C9 amended: the retraction or restart move is emitted only when the
extruder retraction speed is nonzero, and then it is exactly three lines: a
feed-rate line at the precomputed 60 x speed value, a G1 line carrying the
feed-length token, and a feed-rate line restoring the remembered feed rate.
With speed zero a deactivate event emits nothing beyond the echoed marker,
while an activate event may still emit the zero-reset line. -/
theorem retractionMoveShape (s : DimensionSkein) (e : ℝ) (i : ℕ)
    (t u : DimensionSkein) :
    (s.repository.extruderRetractionSpeed = 0 →
      addLinearMoveExtrusionDistanceLine s e = s) ∧
    (s.repository.extruderRetractionSpeed ≠ 0 →
      (addLinearMoveExtrusionDistanceLine s e).output =
        s.output ++
          [OutLine.feedRate (some s.extruderRetractionSpeedMinuteString),
           OutLine.g1Extrusion (getExtrusionDistanceStringFromExtrusionDistance s e).1,
           OutLine.feedRate s.feedRateMinute]) ∧
    (getCraftedGcodeSetup t = some u →
      u.extruderRetractionSpeedMinuteString = 60 * t.repository.extruderRetractionSpeed) ∧
    (s.repository.extruderRetractionSpeed = 0 → s.lines.get? i = some GLine.m103 →
      (parseLine s i).output = s.output ++ [OutLine.raw GLine.m103]) ∧
    (s.repository.extruderRetractionSpeed = 0 → s.lines.get? i = some GLine.m101 →
      (parseLine s i).output = s.output ++
        (if s.totalExtrusionDistance > s.repository.maximumEValueBeforeReset ∨
            s.repository.relativeExtrusionDistance = true
          then [OutLine.g92E0, OutLine.raw GLine.m101]
          else [OutLine.raw GLine.m101])) := by
  refine ⟨fun h => addLinearMove_speedZero s e h, ?_, ?_, ?_, ?_⟩
  · intro h
    simp only [addLinearMoveExtrusionDistanceLine, if_pos h]
    show (getExtrusionDistanceStringFromExtrusionDistance s e).2.output ++ _ = _
    rw [(getEDSFED_fields s e).2.2.2.1]
  · intro h
    simp only [getCraftedGcodeSetup, setZDistanceRatio] at h
    split at h
    · exact absurd h (by simp)
    · injection h with h2
      rw [← h2]
  · intro h hl
    simp only [parseLine, hl]
    show (parseLineM103 s i).output ++ _ = _
    rw [parseLineM103_output_speedZero s i h]
  · intro h hl
    simp only [parseLine, hl]
    simp only [parseLineM101, parseLineM101Retract_speedZero s h]
    split_ifs with hc
    · simp
    · simp

/-- The setup assignments complete on the sSetup example and produce
uSetup. -/
theorem getCraftedGcodeSetup_sSetup : getCraftedGcodeSetup sSetup = some uSetup := by
  norm_num [getCraftedGcodeSetup, setZDistanceRatio, pyFalsy, sSetup, uSetup, initSkein,
    repoBase]
  intro h
  exact absurd h (by simp)

/-- Witness for retractionMoveShape: the zero-speed cases at sC9 and sW9,
the emitted three-line shape at sC2, and the setup assignment at sSetup. -/
theorem retractionMoveShape_witness :
    addLinearMoveExtrusionDistanceLine sC9 2 = sC9 ∧
    (addLinearMoveExtrusionDistanceLine sC2 (-1)).output =
      sC2.output ++
        [OutLine.feedRate (some sC2.extruderRetractionSpeedMinuteString),
         OutLine.g1Extrusion (getExtrusionDistanceStringFromExtrusionDistance sC2 (-1)).1,
         OutLine.feedRate sC2.feedRateMinute] ∧
    uSetup.extruderRetractionSpeedMinuteString =
      60 * sSetup.repository.extruderRetractionSpeed ∧
    (parseLine sW9 0).output = sW9.output ++ [OutLine.raw GLine.m103] ∧
    (parseLine sC9 0).output = sC9.output ++
      (if sC9.totalExtrusionDistance > sC9.repository.maximumEValueBeforeReset ∨
          sC9.repository.relativeExtrusionDistance = true
        then [OutLine.g92E0, OutLine.raw GLine.m101]
        else [OutLine.raw GLine.m101]) := by
  exact ⟨(retractionMoveShape sC9 2 0 sSetup uSetup).1 rfl,
    (retractionMoveShape sC2 (-1) 0 sSetup uSetup).2.1 (by norm_num [sC2, initSkein, repoBase]),
    (retractionMoveShape sC9 0 0 sSetup uSetup).2.2.1 getCraftedGcodeSetup_sSetup,
    (retractionMoveShape sW9 0 0 sSetup uSetup).2.2.2.1 rfl rfl,
    (retractionMoveShape sC9 0 0 sSetup uSetup).2.2.2.2 rfl rfl⟩

/-- The entry at index length - 1 is the last element. -/
theorem get?_length_sub_one {α : Type} :
    ∀ (l : List α), l ≠ [] → l.get? (l.length - 1) = l.getLast?
  | [], h => absurd rfl h
  | [_], _ => rfl
  | a :: b :: t, _ => by
    have ih := get?_length_sub_one (b :: t) (by simp)
    simp only [List.length_cons] at ih ⊢
    simpa [List.getLast?_cons_cons] using ih

/-- Python index -1 addresses the last element of a nonempty list. -/
theorem pyIndex_neg_one {α : Type} (l : List α) (h : l ≠ []) :
    pyIndex l (-1) = l.getLast? := by
  have hlen : 1 ≤ l.length := List.length_pos.mpr h
  have h1 : ¬((0:ℤ) ≤ -1) := by norm_num
  have h2 : (0:ℤ) ≤ -1 + l.length := by
    have hc : (1:ℤ) ≤ l.length := by exact_mod_cast hlen
    linarith
  have h3 : ((-1 : ℤ) + l.length).toNat = l.length - 1 := by omega
  unfold pyIndex
  rw [if_neg h1, if_pos h2, h3, get?_length_sub_one l h]

/-- The token synthesis never touches the layer index. -/
theorem getEDS_layerIndex (s : DimensionSkein) (d : ℝ) (w : MoveWords) :
    (getExtrusionDistanceString s d w).2.layerIndex = s.layerIndex := by
  unfold getExtrusionDistanceString
  dsimp only
  repeat' split
  all_goals first | rfl | exact (getEDSFED_fields _ _).2.1

/-- The dimensioned linear movement never touches the layer index. -/
theorem getDimensioned_layerIndex (s : DimensionSkein) (w : MoveWords) :
    (getDimensionedLinearMovement s w).2.layerIndex = s.layerIndex := by
  unfold getDimensionedLinearMovement
  dsimp only
  repeat' split
  all_goals exact getEDS_layerIndex _ _ _

/-- The activate branch never touches the layer index. -/
theorem parseLineM101_layerIndex (s : DimensionSkein) :
    (parseLineM101 s).layerIndex = s.layerIndex := by
  have h1 : (parseLineM101Retract s).layerIndex = s.layerIndex := by
    unfold parseLineM101Retract
    split
    · exact (addLinearMove_fields s _).2.1
    · split
      · exact (addLinearMove_fields s _).2.1
      · rfl
  simp only [parseLineM101]
  split
  · exact h1
  · exact h1

/-- The deactivate branch never touches the layer index. -/
theorem parseLineM103_layerIndex (s : DimensionSkein) (i : ℕ) :
    (parseLineM103 s i).layerIndex = s.layerIndex := by
  simp only [parseLineM103]
  split
  · exact (addLinearMove_fields s _).2.1
  · split
    · have h2 : ({ (getRetractionRatio s i).2 with
          retractionRatio := (getRetractionRatio s i).1 } :
            DimensionSkein).layerIndex = s.layerIndex := by
        show (getRetractionRatio s i).2.layerIndex = s.layerIndex
        rw [getRetractionRatio_state]
        exact (getDistanceToNextThread_immutable s i).2.1
      exact ((addLinearMove_fields _ _).2.1).trans h2
    · rfl

/-- C10: the layer index starts at -1 and is advanced exactly by
layer-marker lines; the enclosure query indexes the boundary layers with
the current layer index under Python list semantics, so a query made while
the index is still -1 reads the last boundary layer whenever at least one
exists. -/
theorem layerIndexing (r : Repository) (ls : List GLine) (s : DimensionSkein)
    (i : ℕ) (line : GLine) (point : Point) :
    (initSkein r ls).layerIndex = -1 ∧
    (s.lines.get? i = some line → line ≠ GLine.layerMarker →
      (parseLine s i).layerIndex = s.layerIndex) ∧
    (s.lines.get? i = some GLine.layerMarker →
      (parseLine s i).layerIndex = s.layerIndex + 1) ∧
    (s.layerIndex = -1 → s.boundaryLayers ≠ [] →
      ∃ lastLayer, s.boundaryLayers.getLast? = some lastLayer ∧
        getSmallestEnclosureIndex s point =
          some (findLoopIndexAux point 0 lastLayer.loops)) := by
  refine ⟨rfl, ?_, ?_, ?_⟩
  · intro hl hne
    cases line with
    | g1 w =>
      simp only [parseLine, hl]
      exact getDimensioned_layerIndex s w
    | g90 => simp only [parseLine, hl]
    | g91 => simp only [parseLine, hl]
    | layerMarker => exact absurd rfl hne
    | m101 =>
      simp only [parseLine, hl]
      exact parseLineM101_layerIndex s
    | m103 =>
      simp only [parseLine, hl]
      exact parseLineM103_layerIndex s i
    | m108 fl => simp only [parseLine, hl]
    | other => simp only [parseLine, hl]
  · intro hl
    simp only [parseLine, hl]
    split <;> rfl
  · intro hL hne
    have hp : pyIndex s.boundaryLayers s.layerIndex = s.boundaryLayers.getLast? := by
      rw [hL]
      exact pyIndex_neg_one s.boundaryLayers hne
    rcases hgl : s.boundaryLayers.getLast? with _ | lastLayer
    · exact absurd (List.getLast?_eq_none_iff.mp hgl) hne
    · refine ⟨lastLayer, rfl, ?_⟩
      unfold getSmallestEnclosureIndex
      rw [hp, hgl]
      rfl

/-- Witness for layerIndexing: a fresh skein on a layer-marker line with
two boundary layers advances the index from -1 to 0, a non-layer line
leaves the index alone, and the pre-layer query reads the last boundary
layer. -/
theorem layerIndexing_witness :
    (initSkein repoBase []).layerIndex = -1 ∧
    s10.lines.get? 0 = some GLine.layerMarker ∧
    (parseLine s10 0).layerIndex = s10.layerIndex + 1 ∧
    (parseLine sC2 0).layerIndex = sC2.layerIndex ∧
    s10.layerIndex = -1 ∧
    (∃ lastLayer, s10.boundaryLayers.getLast? = some lastLayer ∧
      getSmallestEnclosureIndex s10 (0, 0) =
        some (findLoopIndexAux (0, 0) 0 lastLayer.loops)) := by
  have h := layerIndexing repoBase [] s10 0 GLine.layerMarker (0, 0)
  have h2 := layerIndexing repoBase [] sC2 0 GLine.m103 (0, 0)
  exact ⟨h.1, rfl, h.2.2.1 rfl, h2.2.1 rfl (by simp), rfl,
    h.2.2.2 rfl (by simp [s10, initSkein])⟩

/-- Evaluation of the sC3 lookahead: the straight-line displacement to the
first motion line after the reactivation has size sqrt 2. -/
theorem sC3_lookahead_eval : (getDistanceToNextThread sC3 0).1 = some (Real.sqrt 2) := by
  norm_num [getDistanceToNextThread, sC3, initSkein, repoBase, distanceToNextThreadLoop,
    getLocationFromSplitLine, wX1, wXY1, Vector3.sub_def, Vector3.dropAxis, Point.abs,
    Real.mul_self_sqrt]

/-- C3 fails as stated: with two unit travel moves before the reactivation
the accumulated 3D travel up to the activate marker is 1 + 1 = 2, but the
lookahead returns sqrt 2, the size of the straight-line displacement from
the start position to the position of the first motion line after the
activation. -/
theorem lookaheadNotAccumulated_cex :
    (getDistanceToNextThread sC3 0).1 = some (Real.sqrt 2) ∧
    (1 : ℝ) + 1 = 2 ∧ Real.sqrt 2 ≠ 2 := by
  refine ⟨sC3_lookahead_eval, by norm_num, ne_of_lt ?_⟩
  nlinarith [Real.sq_sqrt (show (0:ℝ) ≤ 2 by norm_num), Real.sqrt_nonneg 2]

/-- C3 amended: the lookahead distance for a deactivate event is the XY
size combined with the zDistanceRatio-scaled Z size of the single
displacement from the start location to the location reached by the first
motion line after the next activate marker; motion lines before the marker
do not contribute.  Moreover zDistanceRatio is never the ratio of the feed
rates: it keeps its initial value 5 in every run whose setup completes,
because the guarded assignment can only run when its own division must
fail. -/
theorem lookaheadStraightLine (s : DimensionSkein) (i : ℕ) (old : Vector3)
    (pre mid rest : List GLine) (w : MoveWords) (r : Repository) (ls : List GLine)
    (t u : DimensionSkein)
    (hOld : s.oldLocation = some old)
    (hLines : s.lines.drop (i + 1) = pre ++ GLine.m101 :: (mid ++ GLine.g1 w :: rest))
    (hPre : GLine.m101 ∉ pre)
    (hMid : ∀ l ∈ mid, (∀ w2, l ≠ GLine.g1 w2) ∧ l ≠ GLine.m103)
    (hIsl : s.repository.retractWithinIsland = true)
    (hSetup : setZDistanceRatio t = some u) :
    (getDistanceToNextThread s i).1 =
      some (Real.sqrt
        (Point.abs (Vector3.dropAxis (getLocationFromSplitLine (some old) w - old)) *
            Point.abs (Vector3.dropAxis (getLocationFromSplitLine (some old) w - old)) +
          (getLocationFromSplitLine (some old) w - old).z * s.zDistanceRatio *
            ((getLocationFromSplitLine (some old) w - old).z * s.zDistanceRatio))) ∧
    (initSkein r ls).zDistanceRatio = 5 ∧ u.zDistanceRatio = t.zDistanceRatio := by
  refine ⟨?_, rfl, ?_⟩
  · have he : getDistanceToNextThread s i =
        distanceToNextThreadLoop s old false old (s.lines.drop (i + 1)) := by
      unfold getDistanceToNextThread; rw [hOld]
    rw [he, hLines, distanceLoop_skip_inactive s old old pre _ hPre]
    simp only [distanceToNextThreadLoop]
    rw [distanceLoop_skip_active s old old mid _ hMid]
    simp [distanceToNextThreadLoop, hIsl]
  · unfold setZDistanceRatio at hSetup
    split at hSetup
    · exact absurd hSetup (by simp)
    · injection hSetup with h2
      rw [← h2]

/-- Witness for lookaheadStraightLine at the sC3 example: the two travel
moves are skipped and the returned distance is sqrt 2, the straight-line
displacement; the z scale keeps its initial value 5. -/
theorem lookaheadStraightLine_witness :
    sC3.oldLocation = some ⟨0, 0, 0⟩ ∧
    sC3.repository.retractWithinIsland = true ∧
    setZDistanceRatio sSetup = some sSetup ∧
    (getDistanceToNextThread sC3 0).1 = some (Real.sqrt 2) ∧
    (initSkein repoBase []).zDistanceRatio = 5 ∧
    sSetup.zDistanceRatio = 5 := by
  have hset : setZDistanceRatio sSetup = some sSetup := by
    norm_num [setZDistanceRatio, pyFalsy, sSetup, initSkein]
    intro h
    exact absurd h (by simp)
  have h := lookaheadStraightLine sC3 0 ⟨0, 0, 0⟩ [GLine.g1 wX1, GLine.g1 wXY1] [] []
    wXY1 repoBase [] sSetup sSetup rfl rfl (by simp) (by simp) rfl hset
  refine ⟨rfl, rfl, hset, ?_, h.2.1, rfl⟩
  rw [h.1]
  norm_num [getLocationFromSplitLine, wXY1, Vector3.sub_def, Vector3.dropAxis, Point.abs,
    Real.mul_self_sqrt]

/-- Evaluation of the sW6 lookahead: reactivation five units away. -/
theorem sW6_lookahead_eval : (getDistanceToNextThread sW6 0).1 = some 5 := by
  have h25 : Real.sqrt 25 = 5 := by
    rw [show (25:ℝ) = 5 ^ 2 by norm_num, Real.sqrt_sq (by norm_num : (0:ℝ) ≤ 5)]
  norm_num [getDistanceToNextThread, sW6, initSkein, repoAdaptive, repoBase,
    distanceToNextThreadLoop, getLocationFromSplitLine, wX3Y4, Vector3.sub_def,
    Vector3.dropAxis, Point.abs, h25]

/-- C6 fails as stated: at this adaptive deactivate event the lookahead
finds no further activation (no location has been seen yet), so the stored
adaptive retract length keeps its initial value 0, which lies below the
configured minimum threshold 0.3: the length the event applies does not
lie in [minRetract, maxRetract]. -/
theorem adaptiveLengthStale_cex :
    sC6.repository.activateAdaptiveRetract = true ∧
    sC6.lines.get? 0 = some GLine.m103 ∧
    sC6.repository.minRetract = 0.3 ∧
    sC6.repository.maxRetract = 20 ∧
    (parseLine sC6 0).autoRetractDistance = 0 ∧
    ¬(sC6.repository.minRetract ≤ (parseLine sC6 0).autoRetractDistance) := by
  have hauto : (parseLine sC6 0).autoRetractDistance = 0 := by
    norm_num [parseLine, parseLineM103, getRetractionRatio, getDistanceToNextThread,
      addLinearMoveExtrusionDistanceLine, getExtrusionDistanceStringFromExtrusionDistance,
      sC6, initSkein, repoAdaptive, repoBase]
  refine ⟨rfl, rfl, rfl, rfl, hauto, ?_⟩
  rw [hauto]
  norm_num [sC6, initSkein, repoAdaptive, repoBase]

/-- C6 amended: whenever the deactivate-event lookahead finds a next
thread, the stored adaptive retract length is sqrt(predicted travel time)
times (oozeRate / 60) clamped into [minRetract, maxRetract], and - given
minRetract at most maxRetract - it lies in that interval; when the
lookahead finds no thread the state is untouched, so the previously stored
length (initially 0) is reused and need not lie in the interval. -/
theorem adaptiveClampPolicy (s : DimensionSkein) (i : ℕ) (r : Repository)
    (ls : List GLine) (hmm2 : s.repository.minRetract ≤ s.repository.maxRetract) :
    (∀ d, (getDistanceToNextThread s i).1 = some d →
      (∃ t, (getDistanceToNextThread s i).2.timeToNextThread = some t ∧
        (getDistanceToNextThread s i).2.autoRetractDistance =
          (if Real.sqrt t * (s.repository.oozeRate / 60) < s.repository.minRetract then
            s.repository.minRetract
          else if Real.sqrt t * (s.repository.oozeRate / 60) > s.repository.maxRetract
            then s.repository.maxRetract
            else Real.sqrt t * (s.repository.oozeRate / 60))) ∧
      s.repository.minRetract ≤ (getDistanceToNextThread s i).2.autoRetractDistance ∧
      (getDistanceToNextThread s i).2.autoRetractDistance ≤ s.repository.maxRetract) ∧
    ((getDistanceToNextThread s i).1 = none → (getDistanceToNextThread s i).2 = s) ∧
    (initSkein r ls).autoRetractDistance = 0 := by
  obtain ⟨hn, hs⟩ := getDistanceToNextThread_spec s i
  refine ⟨?_, hn, rfl⟩
  intro d h
  obtain ⟨t, ht⟩ := hs d h
  rw [ht]
  refine ⟨⟨t, rfl, rfl⟩, ?_, ?_⟩
  · show s.repository.minRetract ≤
      (if Real.sqrt t * (s.repository.oozeRate / 60) < s.repository.minRetract then
        s.repository.minRetract
      else if Real.sqrt t * (s.repository.oozeRate / 60) > s.repository.maxRetract
        then s.repository.maxRetract
        else Real.sqrt t * (s.repository.oozeRate / 60))
    split_ifs with h1 h2 <;> linarith
  · show (if Real.sqrt t * (s.repository.oozeRate / 60) < s.repository.minRetract then
        s.repository.minRetract
      else if Real.sqrt t * (s.repository.oozeRate / 60) > s.repository.maxRetract
        then s.repository.maxRetract
        else Real.sqrt t * (s.repository.oozeRate / 60)) ≤ s.repository.maxRetract
    split_ifs with h1 h2 <;> linarith

/-- Witness for adaptiveClampPolicy at the sW6 example: the lookahead
succeeds with travel 5 and the stored length lies in [0.3, 20]. -/
theorem adaptiveClampPolicy_witness :
    sW6.repository.minRetract ≤ sW6.repository.maxRetract ∧
    (getDistanceToNextThread sW6 0).1 = some 5 ∧
    sW6.repository.minRetract ≤ (getDistanceToNextThread sW6 0).2.autoRetractDistance ∧
    (getDistanceToNextThread sW6 0).2.autoRetractDistance ≤ sW6.repository.maxRetract := by
  have hmm2 : sW6.repository.minRetract ≤ sW6.repository.maxRetract := by
    norm_num [sW6, initSkein, repoAdaptive, repoBase]
  have h := (adaptiveClampPolicy sW6 0 repoBase [] hmm2).1 5 sW6_lookahead_eval
  exact ⟨hmm2, sW6_lookahead_eval, h.2.1, h.2.2⟩

/-- C7: with island-restricted retraction enabled (retract-within-island
off), the lookahead aborts with none as soon as the scanned position - the
one reached by the first motion line after the next activate marker, which
is the only position the scan ever tests - has a smallest-enclosing-loop
index different from that of the position at the start of the lookahead. -/
theorem islandLookaheadAbort (s : DimensionSkein) (i : ℕ) (old : Vector3)
    (pre mid rest : List GLine) (w : MoveWords)
    (hOld : s.oldLocation = some old)
    (hLines : s.lines.drop (i + 1) = pre ++ GLine.m101 :: (mid ++ GLine.g1 w :: rest))
    (hPre : GLine.m101 ∉ pre)
    (hMid : ∀ l ∈ mid, (∀ w2, l ≠ GLine.g1 w2) ∧ l ≠ GLine.m103)
    (hIsl : s.repository.retractWithinIsland = false)
    (hDiff : getSmallestEnclosureIndex s
        (Vector3.dropAxis (getLocationFromSplitLine (some old) w)) ≠
      getSmallestEnclosureIndex s (Vector3.dropAxis old)) :
    (getDistanceToNextThread s i).1 = none := by
  have he : getDistanceToNextThread s i =
      distanceToNextThreadLoop s old false old (s.lines.drop (i + 1)) := by
    unfold getDistanceToNextThread; rw [hOld]
  rw [he, hLines, distanceLoop_skip_inactive s old old pre _ hPre]
  simp only [distanceToNextThreadLoop]
  rw [distanceLoop_skip_active s old old mid _ hMid]
  simp [distanceToNextThreadLoop, hIsl, hDiff]

/-- Witness for islandLookaheadAbort at the sW7 example: the start (0,0)
lies inside the only loop of the current layer, the reactivation point
(5,5) lies outside it, so the lookahead aborts. -/
theorem islandLookaheadAbort_witness :
    sW7.oldLocation = some ⟨0, 0, 0⟩ ∧
    sW7.repository.retractWithinIsland = false ∧
    getSmallestEnclosureIndex sW7
        (Vector3.dropAxis (getLocationFromSplitLine (some ⟨0, 0, 0⟩) wX5Y5)) ≠
      getSmallestEnclosureIndex sW7 (Vector3.dropAxis (⟨0, 0, 0⟩ : Vector3)) ∧
    (getDistanceToNextThread sW7 0).1 = none := by
  have hDiff : getSmallestEnclosureIndex sW7
        (Vector3.dropAxis (getLocationFromSplitLine (some ⟨0, 0, 0⟩) wX5Y5)) ≠
      getSmallestEnclosureIndex sW7 (Vector3.dropAxis (⟨0, 0, 0⟩ : Vector3)) := by
    norm_num [getSmallestEnclosureIndex, pyIndex, findLoopIndexAux, loopHalf, sW7,
      initSkein, repoBase, Vector3.dropAxis, getLocationFromSplitLine, wX5Y5]
    exact fun h => Option.noConfusion h
  refine ⟨rfl, rfl, hDiff, ?_⟩
  exact islandLookaheadAbort sW7 0 ⟨0, 0, 0⟩ [] [] [] wX5Y5 rfl rfl (by simp) (by simp)
    rfl hDiff

end SFACT
